import Mathlib

/-!
# Shallow embedding of the EC2 VPC reconcile-by-tag modules

This file embeds the four Ansible modules
`ec2_vpc_customer_gateway.py`, `ec2_vpc_dhcp_options_set.py`,
`ec2_vpc_vpn_connection.py` and `ec2_vpc_vpn_gateway.py` as pure Lean
functions and proves properties of the reconciliation logic.

Modelling conventions:
* A provider world is the list returned by the corresponding
  `get_all_*` call; each listed resource carries its tag list (the tags
  `ec2.get_all_tags` would return for its id).
* Every provider-mutating call the code issues is recorded, in program
  order, in an `Op` trace returned alongside the result.
* `module.fail_json` is `ReconcileResult.failed msg` (fatal abort);
  normal return of `(id, changed)` is `ReconcileResult.ok id changed`.
* The freshly created resource id that the provider would assign is
  passed in as `newId`.
* Wall-clock time in the wait loop advances one second per iteration
  (each iteration ends in `time.sleep(1)`), so the `time.time() >=
  wait_timeout` test at iteration `i` is `timeout ≤ i`; the
  successive `get_connection_state` answers are a sequence
  `states : Nat → String` (query 0 is the `initial_state` snapshot,
  the loop body's query at iteration `i` is `states (i+1)`); since the
  Python loop need not terminate, the recursion is fuel-bounded and
  fuel exhaustion is the distinct result `outOfFuel` / `running`.
-/

/-- A provider-mutating call issued by one of the modules, in program order. -/
inductive Op where
  | createCustomerGateway (ty ip_address : String) (bgp_asn : Int)
  | deleteCustomerGateway (id : String)
  | createVpnGateway (ty : String)
  | deleteVpnGateway (id : String)
  | attachVpnGateway (id vpc_id : String)
  | detachVpnGateway (id vpc_id : String)
  | createVpnConnection (ty customer_gateway_id vpn_gateway_id : String)
      (static_routes_only : Bool)
  | deleteVpnConnection (id : String)
  | createDhcpOptions (domain : Option String)
      (domain_name_servers ntp_servers netbios_name_servers : Option (List String))
      (netbios_node_type : Option Int)
  | deleteDhcpOptions (id : String)
  | createTags (id name : String)
deriving DecidableEq, Repr

/-- Outcome of a `create_*` reconcile call: `ok id changed` models the
Python `return (id, changed)`, `failed msg` models `module.fail_json(msg=msg)`,
and `running` means the fuel bound was reached while the wait loop was
still polling (the Python code has not returned). -/
inductive ReconcileResult where
  | ok (id : String) (changed : Bool)
  | failed (msg : String)
  | running
deriving DecidableEq, Repr

/-- The Python tag dict is built by `tagdict[tag.name] = tag.value` over the
fetched tag list, so a later entry for the same key overrides an earlier
one; this is lookup in that dict. -/
def tagdictGet (tags : List (String × String)) (key : String) : Option String :=
  tags.foldl (fun acc t => if t.1 == key then some t.2 else acc) none

/-- `('Name', name) in set(tagdict.items())`: the tag dict maps `"Name"`
to `name`. -/
def hasNameTag (tags : List (String × String)) (name : String) : Bool :=
  tagdictGet tags "Name" == some name

/-! ## ec2_vpc_customer_gateway -/

/-- A customer gateway as returned by `get_all_customer_gateways`,
together with the tags `get_all_tags` reports for its id. -/
structure CustomerGateway where
  id : String
  ty : String
  ip_address : String
  bgp_asn : Int
  tags : List (String × String)
deriving DecidableEq, Repr

/-- `create_customer_gateway`: linear scan for the first gateway whose tag
dict contains `('Name', name)`; on a match, any difference in `type`,
`ip_address` or `bgp_asn` is fatal, otherwise `(id, False)`; with no match,
create, tag, and return `(new id, True)`. -/
def create_customer_gateway (name ty ip_address : String) (bgp_asn : Int)
    (customer_gateways : List CustomerGateway) (newId : String) :
    ReconcileResult × List Op :=
  match customer_gateways.find? (fun g => hasNameTag g.tags name) with
  | some g =>
      let changed := (ty != g.ty) || (ip_address != g.ip_address) ||
        (bgp_asn != g.bgp_asn)
      if changed then (.failed "Customer gateway cannot be modified", [])
      else (.ok g.id false, [])
  | none =>
      (.ok newId true,
        [Op.createCustomerGateway ty ip_address bgp_asn, Op.createTags newId name])

/-- `delete_customer_gateway`: delete every gateway whose tag dict contains
`('Name', name)`, collecting the deleted ids in scan order. -/
def delete_customer_gateway (name : String) :
    List CustomerGateway → List String × List Op
  | [] => ([], [])
  | g :: rest =>
      let (ids, ops) := delete_customer_gateway name rest
      if hasNameTag g.tags name then
        (g.id :: ids, Op.deleteCustomerGateway g.id :: ops)
      else (ids, ops)

/-- The `module.exit_json` payload: `changed` plus whichever keyword
arguments the particular call site passes (absent keywords are `none`). -/
structure ExitJson where
  changed : Bool
  gateway_id : Option String := none
  dhcp_options_set_id : Option String := none
  connection_id : Option String := none
  removed_ids : Option (List String) := none
deriving DecidableEq, Repr

/-- The `state == 'absent'` branch of `main` in `ec2_vpc_customer_gateway`:
`module.exit_json(changed=len(removed) > 0, removed_ids=removed)`. -/
def main_absent_customer_gateway (name : String)
    (customer_gateways : List CustomerGateway) : ExitJson × List Op :=
  let (removed, ops) := delete_customer_gateway name customer_gateways
  ({ changed := decide (removed.length > 0), removed_ids := some removed }, ops)

/-! ## ec2_vpc_dhcp_options_set -/

/-- The Python options dict: a mapping from the five possible option keys
(`domain-name`, `domain-name-servers`, `ntp-servers`,
`netbios-name-servers`, `netbios-node-type`) to lists of strings; an
absent key is `none`.  Python dict equality is key/value equality, which
is exactly structural equality here. -/
structure OptionsDict where
  domain_name : Option (List String)
  domain_name_servers : Option (List String)
  ntp_servers : Option (List String)
  netbios_name_servers : Option (List String)
  netbios_node_type : Option (List String)
deriving DecidableEq, Repr

/-- `build_options`: normalize the desired parameters into an options dict;
scalars become single-element lists, unset (`None`) options stay absent. -/
def build_options (domain : Option String)
    (domain_name_servers ntp_servers netbios_name_servers : Option (List String))
    (netbios_node_type : Option Int) : OptionsDict :=
  { domain_name := domain.map (fun d => [d]),
    domain_name_servers := domain_name_servers,
    ntp_servers := ntp_servers,
    netbios_name_servers := netbios_name_servers,
    netbios_node_type := netbios_node_type.map (fun n => [toString n]) }

/-- A DHCP option set as returned by `get_all_dhcp_options`: its id, its
stored option mapping (`dhcp_option.options`), and its tags. -/
structure DhcpOptionSet where
  id : String
  options : OptionsDict
  tags : List (String × String)
deriving DecidableEq, Repr

/-- `create_dhcp_options_set`: on the first tagged match, compare the
desired normalized options dict with the stored one by dict equality
(`desired_options != real_options` is fatal), else `(id, False)`; with no
match, create, tag, and return `(new id, True)`. -/
def create_dhcp_options_set (name : String) (domain : Option String)
    (domain_name_servers ntp_servers netbios_name_servers : Option (List String))
    (netbios_node_type : Option Int)
    (dhcp_options : List DhcpOptionSet) (newId : String) :
    ReconcileResult × List Op :=
  match dhcp_options.find? (fun d => hasNameTag d.tags name) with
  | some d =>
      let desired_options := build_options domain domain_name_servers
        ntp_servers netbios_name_servers netbios_node_type
      if desired_options != d.options then
        (.failed "DHCP options cannot be modified", [])
      else (.ok d.id false, [])
  | none =>
      (.ok newId true,
        [Op.createDhcpOptions domain domain_name_servers ntp_servers
          netbios_name_servers netbios_node_type,
         Op.createTags newId name])

/-- `delete_dhcp_options_set`: delete every option set whose tag dict
contains `('Name', name)`, collecting the deleted ids in scan order. -/
def delete_dhcp_options_set (name : String) :
    List DhcpOptionSet → List String × List Op
  | [] => ([], [])
  | d :: rest =>
      let (ids, ops) := delete_dhcp_options_set name rest
      if hasNameTag d.tags name then
        (d.id :: ids, Op.deleteDhcpOptions d.id :: ops)
      else (ids, ops)

/-- The `state == 'absent'` branch of `main` in `ec2_vpc_dhcp_options_set`:
note the call site is `module.exit_json(changed=changed)` — the computed
`removed` list is NOT passed. -/
def main_absent_dhcp_options_set (name : String)
    (dhcp_options : List DhcpOptionSet) : ExitJson × List Op :=
  let (removed, ops) := delete_dhcp_options_set name dhcp_options
  ({ changed := decide (removed.length > 0) }, ops)

/-! ## ec2_vpc_vpn_gateway -/

/-- One VPC attachment of a VPN gateway. -/
structure Attachment where
  vpc_id : String
deriving DecidableEq, Repr

/-- A VPN gateway as returned by `get_all_vpn_gateways`, with its
attachments and tags. -/
structure VpnGateway where
  id : String
  ty : String
  attachments : List Attachment
  tags : List (String × String)
deriving DecidableEq, Repr

/-- `create_vpn_gateway`: on the first tagged match, detach every
attachment whose VPC differs from the desired one (in attachment order),
attach the desired VPC if no attachment already matches it, and only then
check the immutable `type` — a `type` difference is fatal, but the
detach/attach calls have already been issued; otherwise `(id, changed)`
where `changed` records whether any detach or attach happened.  With no
match, create, tag, attach the desired VPC, and return `(new id, True)`. -/
def create_vpn_gateway (name vpc_id ty : String)
    (vpn_gateways : List VpnGateway) (newId : String) :
    ReconcileResult × List Op :=
  match vpn_gateways.find? (fun g => hasNameTag g.tags name) with
  | some g =>
      let stale := g.attachments.filter (fun a => a.vpc_id != vpc_id)
      let detachOps := stale.map (fun a => Op.detachVpnGateway g.id a.vpc_id)
      let vpc_found := g.attachments.any (fun a => a.vpc_id == vpc_id)
      let attachOps := if vpc_found then [] else [Op.attachVpnGateway g.id vpc_id]
      let changed := !stale.isEmpty || !vpc_found
      let ops := detachOps ++ attachOps
      if ty != g.ty then
        (.failed "VPN gateway cannot be modified in that way", ops)
      else (.ok g.id changed, ops)
  | none =>
      (.ok newId true,
        [Op.createVpnGateway ty, Op.createTags newId name,
         Op.attachVpnGateway newId vpc_id])

/-- `delete_vpn_gateway`: delete every gateway whose tag dict contains
`('Name', name)`, collecting the deleted ids in scan order. -/
def delete_vpn_gateway (name : String) :
    List VpnGateway → List String × List Op
  | [] => ([], [])
  | g :: rest =>
      let (ids, ops) := delete_vpn_gateway name rest
      if hasNameTag g.tags name then
        (g.id :: ids, Op.deleteVpnGateway g.id :: ops)
      else (ids, ops)

/-- The `state == 'absent'` branch of `main` in `ec2_vpc_vpn_gateway`:
`module.exit_json(changed=len(removed) > 0, removed_ids=removed)`. -/
def main_absent_vpn_gateway (name : String)
    (vpn_gateways : List VpnGateway) : ExitJson × List Op :=
  let (removed, ops) := delete_vpn_gateway name vpn_gateways
  ({ changed := decide (removed.length > 0), removed_ids := some removed }, ops)

/-! ## ec2_vpc_vpn_connection -/

/-- Result of one run of the `await_vpn_connection_state` loop within a
given fuel bound. -/
inductive AwaitResult where
  | success (changed : Bool)
  | timeout
  | outOfFuel
deriving DecidableEq, Repr

/-- The body of `await_vpn_connection_state`'s `while True` loop.
Iteration `i` runs at wall time ≈ `i` seconds after the deadline
`wait_timeout = time.time() + timeout` was taken, and queries
`states (i+1)`.  The branch order is that of the source: the awaited
state wins, then `'pending'` merely continues (never reaching the
deadline test), then the deadline test fails fatally, and any other
state before the deadline also continues. -/
def awaitLoop (states : Nat → String) (awaited_state initial_state : String)
    (timeout : Nat) : Nat → Nat → AwaitResult
  | _, 0 => .outOfFuel
  | i, fuel + 1 =>
      let connection_state := states (i + 1)
      if connection_state == awaited_state then
        .success (connection_state != initial_state)
      else if connection_state == "pending" then
        awaitLoop states awaited_state initial_state timeout (i + 1) fuel
      else if timeout ≤ i then .timeout
      else awaitLoop states awaited_state initial_state timeout (i + 1) fuel

/-- `await_vpn_connection_state`: take the deadline, snapshot the initial
state (`states 0`), then run the poll loop. -/
def await_vpn_connection_state (states : Nat → String) (awaited_state : String)
    (timeout : Nat) (fuel : Nat) : AwaitResult :=
  awaitLoop states awaited_state (states 0) timeout 0 fuel

/-- The timeout failure message, `"The vpn connection %s failed to be in
the %s state within the timeout period." % (id, awaited_state)`. -/
def timeoutMsg (id awaited_state : String) : String :=
  "The vpn connection " ++ id ++ " failed to be in the " ++ awaited_state ++
    " state within the timeout period."

/-- A VPN connection as returned by `get_all_vpn_connections`, with its
tags. -/
structure VpnConnection where
  id : String
  ty : String
  customer_gateway_id : String
  vpn_gateway_id : String
  tags : List (String × String)
deriving DecidableEq, Repr

/-- `create_vpn_connection`: on the first tagged match, any difference in
`type`, `customer_gateway_id` or `vpn_gateway_id` is fatal —
`static_routes_only` is never compared (the source comment: "cant seem to
get the routing type to check if that has changed") — otherwise
`(id, False)`.  With no match, create, tag, optionally await the
`'available'` state, and return `(new id, True)`. -/
def create_vpn_connection (name ty customer_gateway_id vpn_gateway_id : String)
    (static_routes_only : Bool) (wait : Bool) (wait_timeout : Nat)
    (vpn_connections : List VpnConnection) (newId : String)
    (states : Nat → String) (fuel : Nat) : ReconcileResult × List Op :=
  match vpn_connections.find? (fun c => hasNameTag c.tags name) with
  | some c =>
      let changed := (ty != c.ty) || (customer_gateway_id != c.customer_gateway_id) ||
        (vpn_gateway_id != c.vpn_gateway_id)
      if changed then (.failed "VPN connection cannot be modified", [])
      else (.ok c.id false, [])
  | none =>
      let ops := [Op.createVpnConnection ty customer_gateway_id vpn_gateway_id
          static_routes_only,
        Op.createTags newId name]
      if wait then
        match await_vpn_connection_state states "available" wait_timeout fuel with
        | .timeout => (.failed (timeoutMsg newId "available"), ops)
        | .success _ => (.ok newId true, ops)
        | .outOfFuel => (.running, ops)
      else (.ok newId true, ops)

/-- `delete_vpn_connection`: delete every connection whose tag dict
contains `('Name', name)`, collecting the deleted ids in scan order. -/
def delete_vpn_connection (name : String) :
    List VpnConnection → List String × List Op
  | [] => ([], [])
  | c :: rest =>
      let (ids, ops) := delete_vpn_connection name rest
      if hasNameTag c.tags name then
        (c.id :: ids, Op.deleteVpnConnection c.id :: ops)
      else (ids, ops)

/-- The `state == 'absent'` branch of `main` in `ec2_vpc_vpn_connection`:
`module.exit_json(changed=len(removed) > 0, removed_ids=removed)`. -/
def main_absent_vpn_connection (name : String)
    (vpn_connections : List VpnConnection) : ExitJson × List Op :=
  let (removed, ops) := delete_vpn_connection name vpn_connections
  ({ changed := decide (removed.length > 0), removed_ids := some removed }, ops)

/-- Provider-state effect of the no-match present path of
`ec2_vpc_customer_gateway`: after `create_customer_gateway(type,
ip_address, bgp_asn)` and `create_tags(id, {'Name': name})`, the listing
additionally contains a gateway with the requested attributes, carrying
exactly the Name tag. -/
def cgwWorldAfterCreate (name ty ip_address : String) (bgp_asn : Int)
    (customer_gateways : List CustomerGateway) (newId : String) :
    List CustomerGateway :=
  customer_gateways ++ [⟨newId, ty, ip_address, bgp_asn, [("Name", name)]⟩]

/-! ## Helper lemmas -/

/-- A singleton `{'Name': name}` tag dict matches `name`. -/
lemma hasNameTag_single (name : String) : hasNameTag [("Name", name)] name = true := by
  simp [hasNameTag, tagdictGet]

/-- `find?` skips a prefix in which nothing satisfies the predicate. -/
lemma find?_append_none {α : Type} (p : α → Bool) :
    ∀ l₁ l₂ : List α, l₁.find? p = none → (l₁ ++ l₂).find? p = l₂.find? p := by
  intro l₁ l₂ h
  rw [List.find?_append, h]
  rfl

/-- `len(l) > 0` as a Bool is the negation of emptiness. -/
lemma decide_length_pos {α : Type} (l : List α) :
    decide (l.length > 0) = !l.isEmpty := by
  cases l <;> simp

/-- Mapping preserves emptiness. -/
lemma isEmpty_map {α β : Type} (f : α → β) (l : List α) :
    (l.map f).isEmpty = l.isEmpty := by
  cases l <;> simp

/-- The customer-gateway delete loop deletes exactly the tagged matches,
collecting their ids in scan order. -/
lemma delete_customer_gateway_eq (name : String) (l : List CustomerGateway) :
    delete_customer_gateway name l =
      ((l.filter (fun g => hasNameTag g.tags name)).map (fun g => g.id),
       (l.filter (fun g => hasNameTag g.tags name)).map
         (fun g => Op.deleteCustomerGateway g.id)) := by
  induction l with
  | nil => rfl
  | cons g rest ih =>
      by_cases h : hasNameTag g.tags name
      · simp [delete_customer_gateway, ih, h, List.filter_cons]
      · simp [delete_customer_gateway, ih, h, List.filter_cons]

/-- The DHCP-option-set delete loop deletes exactly the tagged matches,
collecting their ids in scan order. -/
lemma delete_dhcp_options_set_eq (name : String) (l : List DhcpOptionSet) :
    delete_dhcp_options_set name l =
      ((l.filter (fun d => hasNameTag d.tags name)).map (fun d => d.id),
       (l.filter (fun d => hasNameTag d.tags name)).map
         (fun d => Op.deleteDhcpOptions d.id)) := by
  induction l with
  | nil => rfl
  | cons d rest ih =>
      by_cases h : hasNameTag d.tags name
      · simp [delete_dhcp_options_set, ih, h, List.filter_cons]
      · simp [delete_dhcp_options_set, ih, h, List.filter_cons]

/-- The VPN-gateway delete loop deletes exactly the tagged matches,
collecting their ids in scan order. -/
lemma delete_vpn_gateway_eq (name : String) (l : List VpnGateway) :
    delete_vpn_gateway name l =
      ((l.filter (fun g => hasNameTag g.tags name)).map (fun g => g.id),
       (l.filter (fun g => hasNameTag g.tags name)).map
         (fun g => Op.deleteVpnGateway g.id)) := by
  induction l with
  | nil => rfl
  | cons g rest ih =>
      by_cases h : hasNameTag g.tags name
      · simp [delete_vpn_gateway, ih, h, List.filter_cons]
      · simp [delete_vpn_gateway, ih, h, List.filter_cons]

/-- The VPN-connection delete loop deletes exactly the tagged matches,
collecting their ids in scan order. -/
lemma delete_vpn_connection_eq (name : String) (l : List VpnConnection) :
    delete_vpn_connection name l =
      ((l.filter (fun c => hasNameTag c.tags name)).map (fun c => c.id),
       (l.filter (fun c => hasNameTag c.tags name)).map
         (fun c => Op.deleteVpnConnection c.id)) := by
  induction l with
  | nil => rfl
  | cons c rest ih =>
      by_cases h : hasNameTag c.tags name
      · simp [delete_vpn_connection, ih, h, List.filter_cons]
      · simp [delete_vpn_connection, ih, h, List.filter_cons]

/-- While the polled state is forever `'pending'`, the loop body always
takes the `pass` branch, so the loop never returns within any fuel. -/
lemma awaitLoop_pending (timeout : Nat) :
    ∀ fuel i, awaitLoop (fun _ => "pending") "available" "pending" timeout i fuel =
      .outOfFuel := by
  intro fuel
  induction fuel with
  | zero => intro i; rfl
  | succ n ih =>
      intro i
      have h1 : (("pending" : String) == "available") = false := by decide
      have h2 : (("pending" : String) == "pending") = true := by decide
      simp only [awaitLoop, h1, h2, Bool.false_eq_true, if_false, if_true]
      exact ih (i + 1)

/-- If every polled state is neither the awaited one nor `'pending'`, the
loop reaches the deadline test at every iteration and fails fatally no
later than iteration `timeout`. -/
lemma awaitLoop_timeout_of_bad (states : Nat → String) (awaited initial : String)
    (timeout : Nat) (hbad : ∀ j, states j ≠ awaited ∧ states j ≠ "pending") :
    ∀ fuel i, timeout + 1 ≤ i + fuel → 1 ≤ fuel →
      awaitLoop states awaited initial timeout i fuel = .timeout := by
  intro fuel
  induction fuel with
  | zero => intro i h h1; omega
  | succ n ih =>
      intro i hle _
      have h1 : (states (i + 1) == awaited) = false :=
        beq_eq_false_iff_ne.mpr (hbad (i + 1)).1
      have h2 : (states (i + 1) == "pending") = false :=
        beq_eq_false_iff_ne.mpr (hbad (i + 1)).2
      by_cases hi : timeout ≤ i
      · simp [awaitLoop, h1, h2, hi]
      · have hrec : timeout + 1 ≤ (i + 1) + n := by omega
        have hn : 1 ≤ n := by omega
        simp only [awaitLoop, h1, h2, Bool.false_eq_true, if_false, hi]
        exact ih (i + 1) hrec hn

/-! ## Claim theorems -/

/-- C1 counterexample: with `awaited_state = 'available'` and
`timeout = 2`, a queried state sequence that is `'pending'` at every poll
has produced neither a timeout failure nor a success after 10 loop
iterations (about 10 seconds, far past the 2-second deadline): the
`'pending'` branch is tested before the deadline test, so the loop merely
keeps polling.  This refutes the claim that such a sequence "causes a
timeout failure after about T seconds". -/
theorem claim_C1_counterexample :
    await_vpn_connection_state (fun _ => "pending") "available" 2 10 = .outOfFuel ∧
    await_vpn_connection_state (fun _ => "pending") "available" 2 10 ≠ .timeout := by
  exact ⟨by decide, by decide⟩

/-- C1 (amended): the wait loop fails fatally by the deadline only when
the queried state is neither the awaited state nor `'pending'`: (1) if
every poll returns such a third state, the loop fails with a timeout no
later than iteration `timeout` (given enough fuel to reach it); (2) a
sequence that stays `'pending'` forever never triggers the timeout — the
loop polls indefinitely; (3) at module level, a no-match create with
`wait` and such a never-ready, never-pending sequence fails fatally with
the message naming the connection id and the awaited state. -/
theorem claim_C1 :
    (∀ (states : Nat → String) (awaited_state : String) (timeout fuel : Nat),
      (∀ j, states j ≠ awaited_state ∧ states j ≠ "pending") →
      timeout + 1 ≤ fuel →
      await_vpn_connection_state states awaited_state timeout fuel = .timeout) ∧
    (∀ timeout fuel,
      await_vpn_connection_state (fun _ => "pending") "available" timeout fuel =
        .outOfFuel) ∧
    (∀ (name ty customer_gateway_id vpn_gateway_id : String) (sro : Bool)
      (wait_timeout : Nat) (vpn_connections : List VpnConnection) (newId : String)
      (states : Nat → String) (fuel : Nat),
      vpn_connections.find? (fun c => hasNameTag c.tags name) = none →
      (∀ j, states j ≠ "available" ∧ states j ≠ "pending") →
      wait_timeout + 1 ≤ fuel →
      create_vpn_connection name ty customer_gateway_id vpn_gateway_id sro true
          wait_timeout vpn_connections newId states fuel =
        (.failed (timeoutMsg newId "available"),
         [Op.createVpnConnection ty customer_gateway_id vpn_gateway_id sro,
          Op.createTags newId name])) := by
  refine ⟨?_, ?_, ?_⟩
  · intro states awaited_state timeout fuel hbad hfuel
    exact awaitLoop_timeout_of_bad states awaited_state (states 0) timeout hbad
      fuel 0 (by omega) (by omega)
  · intro timeout fuel
    exact awaitLoop_pending timeout fuel 0
  · intro name ty cgid vgid sro wt conns newId states fuel hfind hbad hfuel
    have hawait : await_vpn_connection_state states "available" wt fuel = .timeout :=
      awaitLoop_timeout_of_bad states "available" (states 0) wt hbad
        fuel 0 (by omega) (by omega)
    simp [create_vpn_connection, hfind, hawait]

/-- Witness for C1: the amended theorem applied at a concrete sequence
stuck in state `'down'` (timing out at the 2-second deadline) and at the
all-`'pending'` sequence (never timing out). -/
theorem claim_C1_witness :
    await_vpn_connection_state (fun _ => "down") "available" 2 4 = .timeout ∧
    await_vpn_connection_state (fun _ => "pending") "available" 2 7 = .outOfFuel := by
  refine ⟨claim_C1.1 (fun _ => "down") "available" 2 4 ?_ (by omega),
    claim_C1.2.1 2 7⟩
  intro j
  constructor
  · show ("down" : String) ≠ "available"
    decide
  · show ("down" : String) ≠ "pending"
    decide

/-- C2 counterexample: desired `domain_name_servers =
["172.30.0.1", "172.30.0.2"]` against an existing tagged option set whose
stored mapping has the same keys and the same server values but in the
order `["172.30.0.2", "172.30.0.1"]`: the Python dict comparison
`desired_options != real_options` compares the lists element by element,
so the reconcile fails fatally instead of reporting `Unchanged`. -/
theorem claim_C2_counterexample :
    create_dhcp_options_set "opts" (some "hq.mycorp.net")
        (some ["172.30.0.1", "172.30.0.2"]) none none none
        [⟨"dopt-1",
          { domain_name := some ["hq.mycorp.net"],
            domain_name_servers := some ["172.30.0.2", "172.30.0.1"],
            ntp_servers := none,
            netbios_name_servers := none,
            netbios_node_type := none },
          [("Name", "opts")]⟩] "dopt-new" =
      (.failed "DHCP options cannot be modified", []) := by
  decide

/-- C2 (amended): for a tagged match, the diff is `Unchanged`
(`(id, changed=false)`, no failure, no operation issued) exactly when the
desired normalized options dict equals the stored one by exact equality —
server-list fields included, compared as ordered lists, not as unordered
collections.  Any difference, including a mere reordering of a server
list, fails fatally. -/
theorem claim_C2 (name : String) (domain : Option String)
    (domain_name_servers ntp_servers netbios_name_servers : Option (List String))
    (netbios_node_type : Option Int) (dhcp_options : List DhcpOptionSet)
    (d : DhcpOptionSet) (newId : String)
    (hfind : dhcp_options.find? (fun x => hasNameTag x.tags name) = some d) :
    ((create_dhcp_options_set name domain domain_name_servers ntp_servers
        netbios_name_servers netbios_node_type dhcp_options newId).1 =
      .ok d.id false ↔
      build_options domain domain_name_servers ntp_servers
        netbios_name_servers netbios_node_type = d.options) ∧
    (create_dhcp_options_set name domain domain_name_servers ntp_servers
        netbios_name_servers netbios_node_type dhcp_options newId).2 = [] := by
  by_cases hb : build_options domain domain_name_servers ntp_servers
      netbios_name_servers netbios_node_type = d.options
  · simp [create_dhcp_options_set, hfind, hb]
  · simp [create_dhcp_options_set, hfind, hb]

/-- Witness for C2: the spec's own positive example — same keys, same
server values in the same order — yields `Unchanged`. -/
theorem claim_C2_witness :
    (create_dhcp_options_set "opts" (some "hq.mycorp.net")
        (some ["172.30.0.1", "172.30.0.2"]) none none none
        [⟨"dopt-1",
          { domain_name := some ["hq.mycorp.net"],
            domain_name_servers := some ["172.30.0.1", "172.30.0.2"],
            ntp_servers := none,
            netbios_name_servers := none,
            netbios_node_type := none },
          [("Name", "opts")]⟩] "dopt-new").1 =
      .ok "dopt-1" false :=
  (claim_C2 "opts" (some "hq.mycorp.net") (some ["172.30.0.1", "172.30.0.2"])
    none none none
    [⟨"dopt-1",
      { domain_name := some ["hq.mycorp.net"],
        domain_name_servers := some ["172.30.0.1", "172.30.0.2"],
        ntp_servers := none,
        netbios_name_servers := none,
        netbios_node_type := none },
      [("Name", "opts")]⟩]
    ⟨"dopt-1",
      { domain_name := some ["hq.mycorp.net"],
        domain_name_servers := some ["172.30.0.1", "172.30.0.2"],
        ntp_servers := none,
        netbios_name_servers := none,
        netbios_node_type := none },
      [("Name", "opts")]⟩
    "dopt-new" (by decide)).1.mpr (by decide)

/-- C3 counterexample: an existing tagged VPN gateway of `type=ipsec.1`
attached to `vpc-A`, reconciled with `type=ipsec.2` and `vpc_id=vpc-B`:
the run does fail fatally on the immutable `type`, but only after having
already detached `vpc-A` and attached `vpc-B` — mutating operations are
issued before the failure, so the existing resource is not left
unmodified. -/
theorem claim_C3_counterexample :
    create_vpn_gateway "gw" "vpc-B" "ipsec.2"
        [⟨"vgw-1", "ipsec.1", [⟨"vpc-A"⟩], [("Name", "gw")]⟩] "vgw-new" =
      (.failed "VPN gateway cannot be modified in that way",
       [Op.detachVpnGateway "vgw-1" "vpc-A",
        Op.attachVpnGateway "vgw-1" "vpc-B"]) := by
  decide

/-- C3 (amended): an immutable-field mismatch on a tagged match fails
fatally with a "cannot be modified" message; for the customer gateway,
the DHCP option set, and the VPN connection no provider-mutating
operation is issued before the failure, but for the VPN gateway the
attachment detach/attach operations have already been issued by the time
the immutable `type` check fails. -/
theorem claim_C3 :
    (∀ (name ty ip_address : String) (bgp_asn : Int)
      (customer_gateways : List CustomerGateway) (g : CustomerGateway)
      (newId : String),
      customer_gateways.find? (fun x => hasNameTag x.tags name) = some g →
      (ty ≠ g.ty ∨ ip_address ≠ g.ip_address ∨ bgp_asn ≠ g.bgp_asn) →
      create_customer_gateway name ty ip_address bgp_asn customer_gateways newId =
        (.failed "Customer gateway cannot be modified", [])) ∧
    (∀ (name : String) (domain : Option String)
      (domain_name_servers ntp_servers netbios_name_servers : Option (List String))
      (netbios_node_type : Option Int) (dhcp_options : List DhcpOptionSet)
      (d : DhcpOptionSet) (newId : String),
      dhcp_options.find? (fun x => hasNameTag x.tags name) = some d →
      build_options domain domain_name_servers ntp_servers netbios_name_servers
        netbios_node_type ≠ d.options →
      create_dhcp_options_set name domain domain_name_servers ntp_servers
          netbios_name_servers netbios_node_type dhcp_options newId =
        (.failed "DHCP options cannot be modified", [])) ∧
    (∀ (name ty customer_gateway_id vpn_gateway_id : String) (sro wait : Bool)
      (wait_timeout : Nat) (vpn_connections : List VpnConnection)
      (c : VpnConnection) (newId : String) (states : Nat → String) (fuel : Nat),
      vpn_connections.find? (fun x => hasNameTag x.tags name) = some c →
      (ty ≠ c.ty ∨ customer_gateway_id ≠ c.customer_gateway_id ∨
        vpn_gateway_id ≠ c.vpn_gateway_id) →
      create_vpn_connection name ty customer_gateway_id vpn_gateway_id sro wait
          wait_timeout vpn_connections newId states fuel =
        (.failed "VPN connection cannot be modified", [])) ∧
    (∀ (name vpc_id ty : String) (vpn_gateways : List VpnGateway)
      (g : VpnGateway) (newId : String),
      vpn_gateways.find? (fun x => hasNameTag x.tags name) = some g →
      ty ≠ g.ty →
      (create_vpn_gateway name vpc_id ty vpn_gateways newId).1 =
        .failed "VPN gateway cannot be modified in that way") := by
  refine ⟨?_, ?_, ?_, ?_⟩
  · intro name ty ip asn gws g newId hfind hdiff
    have hc : (ty != g.ty || ip != g.ip_address || asn != g.bgp_asn) = true := by
      rcases hdiff with h | h | h <;> simp [h]
    simp [create_customer_gateway, hfind, hc]
  · intro name domain dns ntp nbns nbnt ds d newId hfind hdiff
    simp [create_dhcp_options_set, hfind, hdiff]
  · intro name ty cgid vgid sro wait wt conns c newId states fuel hfind hdiff
    have hc : (ty != c.ty || cgid != c.customer_gateway_id ||
        vgid != c.vpn_gateway_id) = true := by
      rcases hdiff with h | h | h <;> simp [h]
    simp [create_vpn_connection, hfind, hc]
  · intro name vpc_id ty gws g newId hfind hdiff
    simp [create_vpn_gateway, hfind, hdiff]

/-- Witness for C3: the amended theorem applied at the spec's own
example — an existing tagged customer gateway with `type=ipsec.1`
reconciled with `type=ipsec.2` — and at the counterexample's VPN
gateway. -/
theorem claim_C3_witness :
    create_customer_gateway "cgw" "ipsec.2" "127.0.0.1" 65000
        [⟨"cgw-1", "ipsec.1", "127.0.0.1", 65000, [("Name", "cgw")]⟩] "cgw-new" =
      (.failed "Customer gateway cannot be modified", []) ∧
    (create_vpn_gateway "gw" "vpc-B" "ipsec.2"
        [⟨"vgw-1", "ipsec.1", [⟨"vpc-A"⟩], [("Name", "gw")]⟩] "vgw-new").1 =
      .failed "VPN gateway cannot be modified in that way" :=
  ⟨claim_C3.1 "cgw" "ipsec.2" "127.0.0.1" 65000
      [⟨"cgw-1", "ipsec.1", "127.0.0.1", 65000, [("Name", "cgw")]⟩]
      ⟨"cgw-1", "ipsec.1", "127.0.0.1", 65000, [("Name", "cgw")]⟩ "cgw-new"
      (by decide) (Or.inl (by decide)),
   claim_C3.2.2.2 "gw" "vpc-B" "ipsec.2"
      [⟨"vgw-1", "ipsec.1", [⟨"vpc-A"⟩], [("Name", "gw")]⟩]
      ⟨"vgw-1", "ipsec.1", [⟨"vpc-A"⟩], [("Name", "gw")]⟩ "vgw-new"
      (by decide) (by decide)⟩

/-- C4 counterexample: a successful absent-path reconcile of a DHCP
option set (here deleting the tagged set `dopt-1`, hence `changed=true`)
reports no `removed_ids` at all — its `exit_json` call passes only
`changed` — refuting the claim for the DHCP option set kind. -/
theorem claim_C4_counterexample :
    (main_absent_dhcp_options_set "opts"
        [⟨"dopt-1", ⟨none, none, none, none, none⟩, [("Name", "opts")]⟩]).1 =
      { changed := true, removed_ids := none } := by
  decide

/-- C4 (amended): the absent-path result always contains `changed`; it
contains `removed_ids` (the ids collected by the delete scan) for the
customer gateway, the VPN gateway and the VPN connection, but the DHCP
option set's absent path reports only `changed` and omits the computed
list of removed ids. -/
theorem claim_C4 :
    (∀ (name : String) (l : List CustomerGateway),
      (main_absent_customer_gateway name l).1.removed_ids =
        some (delete_customer_gateway name l).1 ∧
      (main_absent_customer_gateway name l).1.changed =
        decide ((delete_customer_gateway name l).1.length > 0)) ∧
    (∀ (name : String) (l : List VpnGateway),
      (main_absent_vpn_gateway name l).1.removed_ids =
        some (delete_vpn_gateway name l).1 ∧
      (main_absent_vpn_gateway name l).1.changed =
        decide ((delete_vpn_gateway name l).1.length > 0)) ∧
    (∀ (name : String) (l : List VpnConnection),
      (main_absent_vpn_connection name l).1.removed_ids =
        some (delete_vpn_connection name l).1 ∧
      (main_absent_vpn_connection name l).1.changed =
        decide ((delete_vpn_connection name l).1.length > 0)) ∧
    (∀ (name : String) (l : List DhcpOptionSet),
      (main_absent_dhcp_options_set name l).1.removed_ids = none ∧
      (main_absent_dhcp_options_set name l).1.changed =
        decide ((delete_dhcp_options_set name l).1.length > 0)) := by
  refine ⟨fun name l => ⟨rfl, rfl⟩, fun name l => ⟨rfl, rfl⟩,
    fun name l => ⟨rfl, rfl⟩, fun name l => ⟨rfl, rfl⟩⟩

/-- C6: the absent path of every resource kind deletes exactly the
resources whose tag dict contains `('Name', name)` — all matches, not
just the first — collects their ids in scan order, and reports
`changed` true exactly when that list is non-empty; with no match the
delete scan issues no operation and reports the empty list with
`changed=false` (these are instances of the stated equations at
`filter = []`). -/
theorem claim_C6 (name : String) (cgws : List CustomerGateway)
    (vgws : List VpnGateway) (conns : List VpnConnection)
    (ds : List DhcpOptionSet) :
    (main_absent_customer_gateway name cgws =
      ({ changed := !(cgws.filter (fun g => hasNameTag g.tags name)).isEmpty,
         removed_ids := some ((cgws.filter (fun g => hasNameTag g.tags name)).map
           (fun g => g.id)) },
       (cgws.filter (fun g => hasNameTag g.tags name)).map
         (fun g => Op.deleteCustomerGateway g.id))) ∧
    (main_absent_vpn_gateway name vgws =
      ({ changed := !(vgws.filter (fun g => hasNameTag g.tags name)).isEmpty,
         removed_ids := some ((vgws.filter (fun g => hasNameTag g.tags name)).map
           (fun g => g.id)) },
       (vgws.filter (fun g => hasNameTag g.tags name)).map
         (fun g => Op.deleteVpnGateway g.id))) ∧
    (main_absent_vpn_connection name conns =
      ({ changed := !(conns.filter (fun c => hasNameTag c.tags name)).isEmpty,
         removed_ids := some ((conns.filter (fun c => hasNameTag c.tags name)).map
           (fun c => c.id)) },
       (conns.filter (fun c => hasNameTag c.tags name)).map
         (fun c => Op.deleteVpnConnection c.id))) ∧
    (main_absent_dhcp_options_set name ds =
      ({ changed := !(ds.filter (fun d => hasNameTag d.tags name)).isEmpty },
       (ds.filter (fun d => hasNameTag d.tags name)).map
         (fun d => Op.deleteDhcpOptions d.id))) := by
  refine ⟨?_, ?_, ?_, ?_⟩
  · simp [main_absent_customer_gateway, delete_customer_gateway_eq,
      decide_length_pos, isEmpty_map]
  · simp [main_absent_vpn_gateway, delete_vpn_gateway_eq,
      decide_length_pos, isEmpty_map]
  · simp [main_absent_vpn_connection, delete_vpn_connection_eq,
      decide_length_pos, isEmpty_map]
  · simp [main_absent_dhcp_options_set, delete_dhcp_options_set_eq,
      decide_length_pos, isEmpty_map]

/-- C5: on a tagged VPN-gateway match, the issued operation trace is
exactly one detach per attachment whose VPC differs from the desired
`vpc_id` (in attachment order) followed by one attach of the desired VPC
when no attachment already matches it; and — when the immutable `type`
matches, so a result is reported — the result is `(existing id, changed)`
with `changed` true exactly when at least one attach or detach was
issued. -/
theorem claim_C5 (name vpc_id ty : String) (vpn_gateways : List VpnGateway)
    (g : VpnGateway) (newId : String)
    (hfind : vpn_gateways.find? (fun x => hasNameTag x.tags name) = some g) :
    (create_vpn_gateway name vpc_id ty vpn_gateways newId).2 =
      (g.attachments.filter (fun a => a.vpc_id != vpc_id)).map
        (fun a => Op.detachVpnGateway g.id a.vpc_id) ++
      (if g.attachments.any (fun a => a.vpc_id == vpc_id) then []
       else [Op.attachVpnGateway g.id vpc_id]) ∧
    (ty = g.ty →
      (create_vpn_gateway name vpc_id ty vpn_gateways newId).1 =
        .ok g.id (!(create_vpn_gateway name vpc_id ty vpn_gateways newId).2.isEmpty)) := by
  constructor
  · simp only [create_vpn_gateway, hfind]
    by_cases hty : (ty != g.ty) = true
    · simp [hty]
    · simp [hty]
  · intro hty
    subst hty
    simp only [create_vpn_gateway, hfind, bne_self_eq_false, Bool.false_eq_true,
      if_false]
    cases hv : g.attachments.any (fun a => a.vpc_id == vpc_id) <;>
      cases hs : g.attachments.filter (fun a => a.vpc_id != vpc_id) <;>
      simp [hv, hs, isEmpty_map]

/-- Witness for C5: the spec's convergence example — gateway `vgw-1`
(type matching) attached to `vpc-A`, desired `vpc_id = vpc-B`: the run
detaches `vpc-A`, attaches `vpc-B`, and reports `changed=true`. -/
theorem claim_C5_witness :
    (create_vpn_gateway "gw" "vpc-B" "ipsec.1"
        [⟨"vgw-1", "ipsec.1", [⟨"vpc-A"⟩], [("Name", "gw")]⟩] "vgw-new").2 =
      [Op.detachVpnGateway "vgw-1" "vpc-A", Op.attachVpnGateway "vgw-1" "vpc-B"] ∧
    (create_vpn_gateway "gw" "vpc-B" "ipsec.1"
        [⟨"vgw-1", "ipsec.1", [⟨"vpc-A"⟩], [("Name", "gw")]⟩] "vgw-new").1 =
      .ok "vgw-1" true := by
  have h := claim_C5 "gw" "vpc-B" "ipsec.1"
    [⟨"vgw-1", "ipsec.1", [⟨"vpc-A"⟩], [("Name", "gw")]⟩]
    ⟨"vgw-1", "ipsec.1", [⟨"vpc-A"⟩], [("Name", "gw")]⟩ "vgw-new" (by decide)
  refine ⟨?_, ?_⟩
  · rw [h.1]; decide
  · rw [h.2 rfl]; decide

/-- C7: present-path reconcile of a customer gateway is idempotent — on
a world with no tagged match the first run creates and tags a gateway
and reports `(new id, changed=true)`; a second run with the same spec on
the resulting world (the listing extended with the created, tagged
gateway) finds the match, issues no operation, and reports the same id
with `changed=false`. -/
theorem claim_C7 (name ty ip_address : String) (bgp_asn : Int)
    (customer_gateways : List CustomerGateway) (newId newId2 : String)
    (hnone : customer_gateways.find? (fun g => hasNameTag g.tags name) = none) :
    create_customer_gateway name ty ip_address bgp_asn customer_gateways newId =
      (.ok newId true,
       [Op.createCustomerGateway ty ip_address bgp_asn,
        Op.createTags newId name]) ∧
    create_customer_gateway name ty ip_address bgp_asn
        (cgwWorldAfterCreate name ty ip_address bgp_asn customer_gateways newId)
        newId2 =
      (.ok newId false, []) := by
  constructor
  · simp [create_customer_gateway, hnone]
  · have hfind : (cgwWorldAfterCreate name ty ip_address bgp_asn
        customer_gateways newId).find? (fun g => hasNameTag g.tags name) =
        some ⟨newId, ty, ip_address, bgp_asn, [("Name", name)]⟩ := by
      rw [cgwWorldAfterCreate, find?_append_none _ _ _ hnone]
      simp [List.find?, hasNameTag_single]
    simp [create_customer_gateway, hfind]

/-- Witness for C7: two successive present-path runs from the empty
world: `changed=true` then `changed=false`, the same id both times, and
no operation on the second run. -/
theorem claim_C7_witness :
    create_customer_gateway "cgw" "ipsec.1" "127.0.0.1" 65000 [] "cgw-1" =
      (.ok "cgw-1" true,
       [Op.createCustomerGateway "ipsec.1" "127.0.0.1" 65000,
        Op.createTags "cgw-1" "cgw"]) ∧
    create_customer_gateway "cgw" "ipsec.1" "127.0.0.1" 65000
        (cgwWorldAfterCreate "cgw" "ipsec.1" "127.0.0.1" 65000 [] "cgw-1")
        "cgw-2" =
      (.ok "cgw-1" false, []) :=
  claim_C7 "cgw" "ipsec.1" "127.0.0.1" 65000 [] "cgw-1" "cgw-2" rfl

/-- C8: when the linear scan finds no resource tagged `('Name', name)`,
the present path issues exactly one create followed by one separate
tagging step, and reports the new resource's id with `changed=true` —
shown for the customer gateway and (with `wait=false`) for the VPN
connection. -/
theorem claim_C8 :
    (∀ (name ty ip_address : String) (bgp_asn : Int)
      (customer_gateways : List CustomerGateway) (newId : String),
      customer_gateways.find? (fun g => hasNameTag g.tags name) = none →
      create_customer_gateway name ty ip_address bgp_asn customer_gateways newId =
        (.ok newId true,
         [Op.createCustomerGateway ty ip_address bgp_asn,
          Op.createTags newId name])) ∧
    (∀ (name ty customer_gateway_id vpn_gateway_id : String) (sro : Bool)
      (wait_timeout : Nat) (vpn_connections : List VpnConnection)
      (newId : String) (states : Nat → String) (fuel : Nat),
      vpn_connections.find? (fun c => hasNameTag c.tags name) = none →
      create_vpn_connection name ty customer_gateway_id vpn_gateway_id sro false
          wait_timeout vpn_connections newId states fuel =
        (.ok newId true,
         [Op.createVpnConnection ty customer_gateway_id vpn_gateway_id sro,
          Op.createTags newId name])) := by
  constructor
  · intro name ty ip asn gws newId hnone
    simp [create_customer_gateway, hnone]
  · intro name ty cgid vgid sro wt conns newId states fuel hnone
    simp [create_vpn_connection, hnone]

/-- Witness for C8: both conjuncts applied at the empty world. -/
theorem claim_C8_witness :
    create_customer_gateway "cgw" "ipsec.1" "127.0.0.1" 65000 [] "cgw-1" =
      (.ok "cgw-1" true,
       [Op.createCustomerGateway "ipsec.1" "127.0.0.1" 65000,
        Op.createTags "cgw-1" "cgw"]) ∧
    create_vpn_connection "vpn" "ipsec.1" "cgw-1" "vgw-1" false false 300 []
        "vpn-1" (fun _ => "pending") 0 =
      (.ok "vpn-1" true,
       [Op.createVpnConnection "ipsec.1" "cgw-1" "vgw-1" false,
        Op.createTags "vpn-1" "vpn"]) :=
  ⟨claim_C8.1 "cgw" "ipsec.1" "127.0.0.1" 65000 [] "cgw-1" rfl,
   claim_C8.2 "vpn" "ipsec.1" "cgw-1" "vgw-1" false 300 [] "vpn-1"
     (fun _ => "pending") 0 rfl⟩

/-- C9: on a tagged VPN-connection match whose `type`,
`customer_gateway_id` and `vpn_gateway_id` all equal the desired values,
the reconcile reports `(existing id, changed=false)` with no failure and
no operation, for every desired `static_routes_only` value — the routing
mode never contributes to the diff. -/
theorem claim_C9 (name ty customer_gateway_id vpn_gateway_id : String)
    (sro wait : Bool) (wait_timeout : Nat)
    (vpn_connections : List VpnConnection) (c : VpnConnection)
    (newId : String) (states : Nat → String) (fuel : Nat)
    (hfind : vpn_connections.find? (fun x => hasNameTag x.tags name) = some c)
    (hty : ty = c.ty) (hcg : customer_gateway_id = c.customer_gateway_id)
    (hvg : vpn_gateway_id = c.vpn_gateway_id) :
    create_vpn_connection name ty customer_gateway_id vpn_gateway_id sro wait
        wait_timeout vpn_connections newId states fuel =
      (.ok c.id false, []) := by
  subst hty hcg hvg
  simp [create_vpn_connection, hfind]

/-- Witness for C9: a matching connection whose observed routing mode
would correspond to `static_routes_only=true` reconciled with desired
`static_routes_only=false` still reports `Unchanged`. -/
theorem claim_C9_witness :
    create_vpn_connection "vpn" "ipsec.1" "cgw-1" "vgw-1" false false 300
        [⟨"vpn-1", "ipsec.1", "cgw-1", "vgw-1", [("Name", "vpn")]⟩]
        "vpn-new" (fun _ => "pending") 0 =
      (.ok "vpn-1" false, []) :=
  claim_C9 "vpn" "ipsec.1" "cgw-1" "vgw-1" false false 300
    [⟨"vpn-1", "ipsec.1", "cgw-1", "vgw-1", [("Name", "vpn")]⟩]
    ⟨"vpn-1", "ipsec.1", "cgw-1", "vgw-1", [("Name", "vpn")]⟩
    "vpn-new" (fun _ => "pending") 0 (by decide) rfl rfl rfl

/-- C10: when no tagged VPN gateway exists, the present path creates the
gateway, tags it, and then issues exactly one attach of the desired
`vpc_id` — in that order — before reporting `(new id, changed=true)`:
the new gateway is not left unattached. -/
theorem claim_C10 (name vpc_id ty : String) (vpn_gateways : List VpnGateway)
    (newId : String)
    (hnone : vpn_gateways.find? (fun g => hasNameTag g.tags name) = none) :
    create_vpn_gateway name vpc_id ty vpn_gateways newId =
      (.ok newId true,
       [Op.createVpnGateway ty, Op.createTags newId name,
        Op.attachVpnGateway newId vpc_id]) := by
  simp [create_vpn_gateway, hnone]

/-- Witness for C10: creation from the empty world attaches the desired
VPC after create and tag. -/
theorem claim_C10_witness :
    create_vpn_gateway "gw" "vpc-A" "ipsec.1" [] "vgw-1" =
      (.ok "vgw-1" true,
       [Op.createVpnGateway "ipsec.1", Op.createTags "vgw-1" "gw",
        Op.attachVpnGateway "vgw-1" "vpc-A"]) :=
  claim_C10 "gw" "vpc-A" "ipsec.1" [] "vgw-1" rfl
